import Mathlib

/-!
Shallow embedding of the `model-rag` repository: a retrieval-augmented
generation workflow (LangGraph state machine in `src/graph/graph.py` with
nodes `retrieve`, `grade_documents`, `generate`), the FastAPI handler in
`src/main.py`, and the CSV ingestion in `src/ingestion.py`.

External LLM/vector-store calls (`query_all_retrievers`, the
`retrieval_grader`, `hallucination_grader`, `answer_grader` chains and the
`generation_chain`) are opaque service calls; they are modelled as oracle
functions collected in `Oracles`.  The oracle for the generator and the two
generation graders additionally takes the index of the generation attempt,
so that non-deterministic services whose answers may change between retries
are representable; the workflow state itself carries no such counter,
mirroring the source.
-/

namespace RagSpec

/-- A langchain `Document`: `page_content` plus the metadata written by
`process_csv_to_vectorstore` (`{"source": csv_file, "row": index}`). -/
structure Doc where
  page_content : String
  source : String
  row : Nat
deriving DecidableEq

/-- The workflow state dict (`GraphState`), with the four keys the nodes in
`src/graph` read and write: `question`, `documents`, `results`,
`generation`.  `generation` is `Option` because the key is absent until the
`generate` node first writes it (`main.py` reads it with default "N/A"). -/
structure GraphState where
  question : String
  documents : List Doc
  results : Bool
  generation : Option String
deriving DecidableEq

/-- The partial dict a node returns; `none` means the key is not in the
returned dict and the state channel keeps its old value. -/
structure StateUpdate where
  question : Option String
  documents : Option (List Doc)
  results : Option Bool
  generation : Option String

/-- LangGraph merges the dict returned by a node into the state: returned
keys overwrite, absent keys are kept. -/
def merge (s : GraphState) (u : StateUpdate) : GraphState :=
  { question := u.question.getD s.question
    documents := u.documents.getD s.documents
    results := u.results.getD s.results
    generation :=
      match u.generation with
      | some g => some g
      | none => s.generation }

/-- The external services: retrieval (`query_all_retrievers`), the
relevance grader's `binary_score` string label, the generation chain's
output, and the truthiness of the hallucination and answer graders'
`binary_score`.  The `Nat` argument is the generation-attempt index. -/
structure Oracles where
  retrieveFn : String → List Doc
  relevanceScore : String → String → String
  genOut : Nat → String → List Doc → String
  hallScore : Nat → List Doc → String → Bool
  ansScore : Nat → String → String → Bool

/-- The `retrieve` node (`src/graph/nodes/retrieve.py`): queries all retrievers
with the question and returns `{"documents": documents, "question": question}`. -/
def retrieve (O : Oracles) (s : GraphState) : StateUpdate :=
  ⟨some s.question, some (O.retrieveFn s.question), none, none⟩

/-- Python's `str.lower()` on the grader labels: lowercase the characters
one by one (`String.toLower` does the same by mapping `Char.toLower`). -/
def py_lower (s : String) : String :=
  String.mk (s.data.map Char.toLower)

/-- The grading loop of `grade_documents`: for each document invoke the
retrieval grader once, keep the document iff `grade.lower() == "yes"`.
Returns the filtered list together with the number of grader invocations. -/
def gradeDocsLoop (O : Oracles) (q : String) : List Doc → List Doc × Nat
  | [] => ([], 0)
  | d :: ds =>
    let grade := O.relevanceScore q d.page_content
    let rest := gradeDocsLoop O q ds
    if py_lower grade == "yes" then (d :: rest.1, rest.2 + 1)
    else (rest.1, rest.2 + 1)

/-- The `grade_documents` node (`src/graph/nodes/grade_documents.py`): filters
the documents through the relevance grader and returns
`{"documents": filtered_docs, "question": question, "results": results}`
where `results` is true iff `filtered_docs` is non-empty. -/
def grade_documents (O : Oracles) (s : GraphState) : StateUpdate :=
  let filtered := (gradeDocsLoop O s.question s.documents).1
  ⟨some s.question, some filtered, some (!filtered.isEmpty), none⟩

/-- The `generate` node (`src/graph/nodes/generate.py`): invokes the generation
chain on `{"context": documents, "question": question}` and returns
`{"documents": documents, "question": question, "generation": generation}`.
`k` is the attempt index fed to the oracle. -/
def generate (O : Oracles) (k : Nat) (s : GraphState) : StateUpdate :=
  ⟨some s.question, some s.documents, none, some (O.genOut k s.question s.documents)⟩

/-- The graph nodes of `src/graph/graph.py` plus the `END` sentinel. -/
inductive Node where
  | retrieveN
  | gradeDocumentsN
  | generateN
  | endN
deriving DecidableEq

/-- Function `decide_to_generate` (`src/graph/graph.py`): route on the
`results` channel of the state. -/
def decide_to_generate (s : GraphState) : Node :=
  if s.results then Node.generateN else Node.endN

/-- Function `grade_generation_grounded_in_documents_and_question`
(`src/graph/graph.py`): first the hallucination grader; only if its score
is truthy, the answer grader.  Returns the route string together with the
number of invocations of the hallucination grader and of the answer grader
made by this call. -/
def grade_generation_grounded_in_documents_and_question
    (O : Oracles) (k : Nat) (s : GraphState) : String × Nat × Nat :=
  let gen := s.generation.getD ""
  if O.hallScore k s.documents gen then
    if O.ansScore k s.question gen then ("useful", 1, 1)
    else ("not useful", 1, 1)
  else ("hallucination", 1, 0)

/-- The conditional-edge dict attached to `GENERATE`:
`{"not useful": GENERATE, "useful": END, "hallucination": GENERATE}`. -/
def generationEdgeMap (r : String) : Option Node :=
  if r = "not useful" then some Node.generateN
  else if r = "useful" then some Node.endN
  else if r = "hallucination" then some Node.generateN
  else none

/-- A workflow configuration: the node about to run, the current state, and
`calls`, the number of completed `generate` executions (this lives in the
driver only, to index the oracles; the state carries no counter). -/
structure Config where
  node : Node
  state : GraphState
  calls : Nat
deriving DecidableEq

/-- One transition of the compiled graph: run the current node, merge its
returned dict into the state, follow the (conditional) edge. -/
def step (O : Oracles) (c : Config) : Config :=
  match c.node with
  | Node.retrieveN =>
    ⟨Node.gradeDocumentsN, merge c.state (retrieve O c.state), c.calls⟩
  | Node.gradeDocumentsN =>
    let s2 := merge c.state (grade_documents O c.state)
    ⟨decide_to_generate s2, s2, c.calls⟩
  | Node.generateN =>
    let s2 := merge c.state (generate O c.calls c.state)
    let route := (grade_generation_grounded_in_documents_and_question O c.calls s2).1
    ⟨(generationEdgeMap route).getD Node.endN, s2, c.calls + 1⟩
  | Node.endN => c

/-- Invoking `graph_app` on a question starts at the entry
point `RETRIEVE` with only the question populated. -/
def initConfig (q : String) : Config :=
  ⟨Node.retrieveN, ⟨q, [], false, none⟩, 0⟩

/-- The configuration after `n` steps of the workflow. -/
def run (O : Oracles) (q : String) : Nat → Config
  | 0 => initConfig q
  | Nat.succ n => step O (run O q n)

/-- What the HTTP layer sends back. -/
inductive HttpResponse where
  | ok (body : String)
  | error (status : Nat) (detail : String)
deriving DecidableEq

/-- Handler `generate_response` (`src/main.py`): on success return
`result.get("generation", "N/A")`; any exception becomes
`HTTPException(status_code=500, detail="Error generating response")`. -/
def generate_response (r : Except String GraphState) : HttpResponse :=
  match r with
  | Except.ok result => HttpResponse.ok (result.generation.getD "N/A")
  | Except.error _ => HttpResponse.error 500 "Error generating response"

/-- Scan for the first unescaped closing brace before a newline: the lazy
`.*?\x7d` part of the pattern in `clean_text` (`.` does not match a
newline).  Returns the characters after the brace, or `none` when no
closing brace occurs on the line. -/
def findClose : List Char → Option (List Char)
  | [] => none
  | c :: cs => if c = '}' then some cs else if c = '\n' then none else findClose cs

/-- Fuelled scanner for `re.sub` with the pattern matching a literal
`\x7b"url":`, then lazily anything up to the next `\x7d`: the leftmost
match is removed and scanning resumes after it; a position where the
literal matches but no closing brace follows on the line is not a match
and scanning moves one character on.  The fuel only needs to be at least
the length of the list. -/
def cleanCharsGo : Nat → List Char → List Char
  | _, [] => []
  | Nat.succ fuel, '{' :: '"' :: 'u' :: 'r' :: 'l' :: '"' :: ':' :: rest =>
    (match findClose rest with
     | some after => cleanCharsGo fuel after
     | none => '{' :: cleanCharsGo fuel ('"' :: 'u' :: 'r' :: 'l' :: '"' :: ':' :: rest))
  | Nat.succ fuel, c :: cs => c :: cleanCharsGo fuel cs
  | 0, l => l

/-- Function `clean_text` (`src/ingestion.py`): strip every substring matching the
URL-bearing JSON-fragment pattern. -/
def clean_text (s : String) : String :=
  String.mk (cleanCharsGo s.data.length s.data)

/-- One `column_name:\nvalue` block of a row; the `data` and `input`
columns are cleaned first. -/
def row_cell (col cell : String) : String :=
  col ++ ":\n" ++ (if col = "data" ∨ col = "input" then clean_text cell else cell)

/-- The content of one CSV row: the per-column blocks joined by blank
lines. -/
def row_content (row : List (String × String)) : String :=
  String.intercalate "\n\n" (row.map fun p => row_cell p.1 p.2)

/-- The row loop of `process_csv_to_vectorstore`, carrying the running row
index from `df.iterrows()`. -/
def process_rows_from (f : String) : Nat → List (List (String × String)) → List Doc
  | _, [] => []
  | i, r :: rs => ⟨row_content r, f, i⟩ :: process_rows_from f (i + 1) rs

/-- Function `process_csv_to_vectorstore` (`src/ingestion.py`), restricted to the
document construction it owns: each row of the cleaned dataframe becomes
one `Doc` with metadata source = the CSV path and row = the row index,
starting at 0. -/
def process_csv_rows (f : String) (rows : List (List (String × String))) : List Doc :=
  process_rows_from f 0 rows

/-! ### Concrete instances used by the witnesses -/

/-- A concrete passage. -/
def docA : Doc := ⟨"alpha", "f.csv", 0⟩

/-- A second concrete passage. -/
def docB : Doc := ⟨"beta", "f.csv", 1⟩

/-- Oracles where every passage is relevant and both generation graders
approve. -/
def oracleYes : Oracles :=
  ⟨fun _ => [docA, docB], fun _ _ => "yes", fun k _ _ => "answer" ++ toString k,
   fun _ _ _ => true, fun _ _ _ => true⟩

/-- Oracles where the relevance grader rejects every passage. -/
def oracleNo : Oracles :=
  ⟨fun _ => [docA, docB], fun _ _ => "no", fun _ _ _ => "answer",
   fun _ _ _ => true, fun _ _ _ => true⟩

/-- Oracles where the hallucination grader always rejects, so the
generation retry loop never exits. -/
def oracleLoop : Oracles :=
  ⟨fun _ => [docA], fun _ _ => "Yes", fun _ _ _ => "answer",
   fun _ _ _ => false, fun _ _ _ => true⟩

/-- Oracles whose relevance grader answers a capitalised "Yes" for the
first passage and "maybe" for every other one. -/
def oracleMixed : Oracles :=
  ⟨fun _ => [docA, docB], fun _ c => if c = "alpha" then "Yes" else "maybe",
   fun _ _ _ => "answer", fun _ _ _ => true, fun _ _ _ => false⟩

/-! ### Helper lemmas -/

/-- The grading loop computes exactly the filter by the case-insensitive
"yes" test. -/
theorem gradeDocsLoop_fst (O : Oracles) (q : String) (l : List Doc) :
    (gradeDocsLoop O q l).1 =
      l.filter fun d => py_lower (O.relevanceScore q d.page_content) == "yes" := by
  induction l with
  | nil => rfl
  | cons d ds ih =>
    simp only [gradeDocsLoop, List.filter_cons]
    split <;> simp [ih]

/-- The grading loop invokes the grader once per document. -/
theorem gradeDocsLoop_snd (O : Oracles) (q : String) (l : List Doc) :
    (gradeDocsLoop O q l).2 = l.length := by
  induction l with
  | nil => rfl
  | cons d ds ih =>
    simp only [gradeDocsLoop, List.length_cons]
    split <;> simp [ih]

/-- If every document is graded irrelevant, the filtered list is empty. -/
theorem gradeDocsLoop_all_no (O : Oracles) (q : String) (l : List Doc)
    (h : ∀ d, d ∈ l → py_lower (O.relevanceScore q d.page_content) ≠ "yes") :
    (gradeDocsLoop O q l).1 = [] := by
  rw [gradeDocsLoop_fst, List.filter_eq_nil_iff]
  exact fun d hd hbeq => h d hd (eq_of_beq hbeq)

/-- The `END` node is absorbing for `step`. -/
theorem step_of_end (O : Oracles) (c : Config) (h : c.node = Node.endN) :
    step O c = c := by
  obtain ⟨nd, s, k⟩ := c
  have h2 : nd = Node.endN := h
  subst h2
  rfl

/-- Once a run reaches `END`, the configuration never changes. -/
theorem run_end_stable (O : Oracles) (q : String) (n : Nat)
    (h : (run O q n).node = Node.endN) :
    ∀ m, n ≤ m → run O q m = run O q n := by
  intro m hm
  obtain ⟨j, rfl⟩ := Nat.exists_eq_add_of_le hm
  clear hm
  induction j with
  | zero => rfl
  | succ j ih =>
    show step O (run O q (n + j)) = run O q n
    rw [ih, step_of_end O _ h]

/-- A step never changes the question channel. -/
theorem step_state_question (O : Oracles) (c : Config) :
    (step O c).state.question = c.state.question := by
  obtain ⟨nd, s, k⟩ := c
  cases nd <;> rfl

/-- The question channel always holds the input question. -/
theorem run_state_question (O : Oracles) (q : String) (n : Nat) :
    (run O q n).state.question = q := by
  induction n with
  | zero => rfl
  | succ n ih =>
    show (step O (run O q n)).state.question = q
    rw [step_state_question, ih]

/-- The configuration after the retrieval step. -/
theorem run_one (O : Oracles) (q : String) :
    run O q 1 = ⟨Node.gradeDocumentsN, ⟨q, O.retrieveFn q, false, none⟩, 0⟩ := rfl

/-- The configuration after the grading step. -/
theorem run_two (O : Oracles) (q : String) :
    run O q 2 =
      ⟨decide_to_generate
          ⟨q, (gradeDocsLoop O q (O.retrieveFn q)).1,
            !((gradeDocsLoop O q (O.retrieveFn q)).1).isEmpty, none⟩,
        ⟨q, (gradeDocsLoop O q (O.retrieveFn q)).1,
          !((gradeDocsLoop O q (O.retrieveFn q)).1).isEmpty, none⟩, 0⟩ := rfl

/-- The shape of one step out of the `GRADE_DOCUMENTS` node. -/
theorem step_grade (O : Oracles) (s : GraphState) (k : Nat) :
    step O ⟨Node.gradeDocumentsN, s, k⟩ =
      ⟨decide_to_generate
          ⟨s.question, (gradeDocsLoop O s.question s.documents).1,
            !((gradeDocsLoop O s.question s.documents).1).isEmpty, s.generation⟩,
        ⟨s.question, (gradeDocsLoop O s.question s.documents).1,
          !((gradeDocsLoop O s.question s.documents).1).isEmpty, s.generation⟩,
        k⟩ := rfl

/-- The shape of one step out of the `GENERATE` node. -/
theorem step_gen (O : Oracles) (s : GraphState) (k : Nat) :
    step O ⟨Node.generateN, s, k⟩ =
      ⟨(generationEdgeMap
          (grade_generation_grounded_in_documents_and_question O k
            ⟨s.question, s.documents, s.results,
              some (O.genOut k s.question s.documents)⟩).1).getD Node.endN,
        ⟨s.question, s.documents, s.results,
          some (O.genOut k s.question s.documents)⟩, k + 1⟩ := rfl

/-- The generation grader's route once the generation channel is known. -/
theorem grade_gen_route (O : Oracles) (k : Nat) (st : GraphState) (g : String)
    (hgen : st.generation = some g) :
    grade_generation_grounded_in_documents_and_question O k st =
      (if O.hallScore k st.documents g then
        (if O.ansScore k st.question g then ("useful", 1, 1)
         else ("not useful", 1, 1))
       else ("hallucination", 1, 0)) := by
  simp only [grade_generation_grounded_in_documents_and_question, hgen, Option.getD_some]

/-- Under an all-irrelevant grading, the run is at `END` after two steps
with empty documents, a false flag and no generation. -/
theorem run_two_of_no_relevant (O : Oracles) (q : String)
    (h : ∀ d, d ∈ O.retrieveFn q →
      py_lower (O.relevanceScore q d.page_content) ≠ "yes") :
    run O q 2 = ⟨Node.endN, ⟨q, [], false, none⟩, 0⟩ := by
  rw [run_two, gradeDocsLoop_all_no O q _ h]
  rfl

/-! ### Claims -/

/-- C1: the passage sequence produced by `grade_documents` is an
order-preserving subsequence of the passage sequence it received: every
retained passage is a member of the input sequence, and in the workflow
trace the documents after the grading stage are a subsequence of the
documents retrieval produced. -/
theorem c1_filter_is_subsequence (O : Oracles) (s : GraphState) :
    List.Sublist (merge s (grade_documents O s)).documents s.documents ∧
    (∀ d, d ∈ (merge s (grade_documents O s)).documents → d ∈ s.documents) ∧
    (∀ q, List.Sublist (run O q 2).state.documents (run O q 1).state.documents) := by
  have hsub : List.Sublist (merge s (grade_documents O s)).documents s.documents := by
    show List.Sublist (gradeDocsLoop O s.question s.documents).1 s.documents
    rw [gradeDocsLoop_fst]
    exact List.filter_sublist s.documents
  refine ⟨hsub, fun d hd => hsub.subset hd, ?_⟩
  intro q
  rw [run_two, run_one]
  show List.Sublist (gradeDocsLoop O q (O.retrieveFn q)).1 (O.retrieveFn q)
  rw [gradeDocsLoop_fst]
  exact List.filter_sublist (O.retrieveFn q)

/-- Witness for C1 at a concrete state and oracle set. -/
theorem c1_filter_is_subsequence_witness : docA ∈ ([docA, docB] : List Doc) :=
  (c1_filter_is_subsequence oracleMixed ⟨"q", [docA, docB], false, none⟩).2.1
    docA (by decide)

/-- C5: during filtering the relevance grader is invoked exactly once per
retrieved passage; the retained list is exactly the documents whose label
lowercases to "yes", so a passage is retained only under a
case-insensitive affirmative label and any other label drops it. -/
theorem c5_relevance_grading_once_per_passage (O : Oracles) (q : String)
    (docs : List Doc) :
    (gradeDocsLoop O q docs).2 = docs.length ∧
    (gradeDocsLoop O q docs).1 =
      docs.filter (fun d => py_lower (O.relevanceScore q d.page_content) == "yes") ∧
    (∀ d, d ∈ (gradeDocsLoop O q docs).1 →
      py_lower (O.relevanceScore q d.page_content) = "yes") ∧
    (∀ d, d ∈ docs → py_lower (O.relevanceScore q d.page_content) ≠ "yes" →
      d ∉ (gradeDocsLoop O q docs).1) := by
  refine ⟨gradeDocsLoop_snd O q docs, gradeDocsLoop_fst O q docs, ?_, ?_⟩
  · intro d hd
    rw [gradeDocsLoop_fst] at hd
    exact eq_of_beq (List.mem_filter.mp hd).2
  · intro d _ hne hmem
    rw [gradeDocsLoop_fst] at hmem
    exact hne (eq_of_beq (List.mem_filter.mp hmem).2)

/-- Witness for C5: a passage graded "maybe" is dropped while the grader
ran once per passage. -/
theorem c5_relevance_grading_once_per_passage_witness :
    docB ∉ (gradeDocsLoop oracleMixed "q" [docA, docB]).1 :=
  (c5_relevance_grading_once_per_passage oracleMixed "q" [docA, docB]).2.2.2
    docB (by decide) (by decide)

/-- C3: after the grading step the results flag is true iff some passage
survived, the next node is `GENERATE` iff the flag is true and `END` iff it
is false; and when every retrieved passage is graded irrelevant the run
reaches `END` at step two and the generator is never entered nor called. -/
theorem c3_results_flag_gates_generation (O : Oracles) :
    (∀ s k,
      ((step O ⟨Node.gradeDocumentsN, s, k⟩).state.results = true ↔
        (gradeDocsLoop O s.question s.documents).1 ≠ []) ∧
      ((step O ⟨Node.gradeDocumentsN, s, k⟩).node = Node.generateN ↔
        (step O ⟨Node.gradeDocumentsN, s, k⟩).state.results = true) ∧
      ((step O ⟨Node.gradeDocumentsN, s, k⟩).node = Node.endN ↔
        (step O ⟨Node.gradeDocumentsN, s, k⟩).state.results = false)) ∧
    (∀ q, (∀ d, d ∈ O.retrieveFn q →
        py_lower (O.relevanceScore q d.page_content) ≠ "yes") →
      (run O q 2).node = Node.endN ∧
      (∀ n, (run O q n).node ≠ Node.generateN ∧ (run O q n).calls = 0)) := by
  constructor
  · intro s k
    rw [step_grade]
    cases hL : (gradeDocsLoop O s.question s.documents).1 with
    | nil => simp [decide_to_generate, hL]
    | cons a l => simp [decide_to_generate, hL]
  · intro q h
    have h2 : run O q 2 = ⟨Node.endN, ⟨q, [], false, none⟩, 0⟩ :=
      run_two_of_no_relevant O q h
    refine ⟨by rw [h2], ?_⟩
    intro n
    match n with
    | 0 => exact ⟨(fun hc => nomatch hc), rfl⟩
    | 1 => rw [run_one]; exact ⟨(fun hc => nomatch hc), rfl⟩
    | (m + 2) =>
      have hs := run_end_stable O q 2 (by rw [h2]) (m + 2) (by omega)
      rw [hs, h2]
      exact ⟨(fun hc => nomatch hc), rfl⟩

/-- Witness for C3 at oracles whose relevance grader rejects everything. -/
theorem c3_results_flag_gates_generation_witness :
    (run oracleNo "q" 2).node = Node.endN ∧
    (run oracleNo "q" 5).node ≠ Node.generateN ∧ (run oracleNo "q" 5).calls = 0 :=
  ⟨((c3_results_flag_gates_generation oracleNo).2 "q"
      (fun d _ => by show py_lower "no" ≠ "yes"; decide)).1,
   ((c3_results_flag_gates_generation oracleNo).2 "q"
      (fun d _ => by show py_lower "no" ≠ "yes"; decide)).2 5⟩

/-- C2: after a `GENERATE` step the workflow moves to `END` iff both the
groundedness and the answer-quality judgments are positive; on a negative
groundedness judgment `GENERATE` is re-entered and the answer grader is not
invoked; on positive groundedness but negative answer quality `GENERATE` is
also re-entered. -/
theorem c2_generation_routing (O : Oracles) (s : GraphState) (k : Nat) :
    ((step O ⟨Node.generateN, s, k⟩).node = Node.endN ↔
      O.hallScore k s.documents (O.genOut k s.question s.documents) = true ∧
      O.ansScore k s.question (O.genOut k s.question s.documents) = true) ∧
    (O.hallScore k s.documents (O.genOut k s.question s.documents) = false →
      (step O ⟨Node.generateN, s, k⟩).node = Node.generateN ∧
      (grade_generation_grounded_in_documents_and_question O k
        (merge s (generate O k s))).2.2 = 0) ∧
    (O.hallScore k s.documents (O.genOut k s.question s.documents) = true →
      O.ansScore k s.question (O.genOut k s.question s.documents) = false →
      (step O ⟨Node.generateN, s, k⟩).node = Node.generateN) := by
  rw [step_gen]
  have hroute := grade_gen_route O k
    ⟨s.question, s.documents, s.results, some (O.genOut k s.question s.documents)⟩
    (O.genOut k s.question s.documents) rfl
  cases hh : O.hallScore k s.documents (O.genOut k s.question s.documents) <;>
    cases ha : O.ansScore k s.question (O.genOut k s.question s.documents) <;>
    simp only [hh, ha, Bool.false_eq_true, if_false, if_true] at hroute <;>
    simp [hroute, generationEdgeMap, merge, generate, hh, ha]

/-- Witness for C2: with a failing groundedness grader the step re-enters
`GENERATE` without consulting the answer grader. -/
theorem c2_generation_routing_witness :
    (step oracleLoop ⟨Node.generateN, ⟨"q", [docA], true, none⟩, 0⟩).node =
      Node.generateN ∧
    (grade_generation_grounded_in_documents_and_question oracleLoop 0
      (merge ⟨"q", [docA], true, none⟩
        (generate oracleLoop 0 ⟨"q", [docA], true, none⟩))).2.2 = 0 :=
  (c2_generation_routing oracleLoop ⟨"q", [docA], true, none⟩ 0).2.1 rfl

/-- C4: the retry loop has no bound: whenever grading lets at least one
passage through and the groundedness grader persistently answers no, the
run is at `GENERATE` at every step from step two on, the number of
completed generator calls grows past every bound, and `END` is never
reached. -/
theorem c4_unbounded_retry (O : Oracles) (q : String)
    (hhall : ∀ k d g, O.hallScore k d g = false)
    (hne : (gradeDocsLoop O q (O.retrieveFn q)).1 ≠ []) :
    (∀ n, (run O q (n + 2)).node = Node.generateN ∧ (run O q (n + 2)).calls = n) ∧
    (∀ n, (run O q n).node ≠ Node.endN) := by
  have hstep : ∀ s k, (step O ⟨Node.generateN, s, k⟩).node = Node.generateN ∧
      (step O ⟨Node.generateN, s, k⟩).calls = k + 1 := by
    intro s k
    rw [step_gen]
    have hroute := grade_gen_route O k
      ⟨s.question, s.documents, s.results, some (O.genOut k s.question s.documents)⟩
      (O.genOut k s.question s.documents) rfl
    rw [hhall] at hroute
    simp only [Bool.false_eq_true, if_false] at hroute
    exact ⟨by simp [hroute, generationEdgeMap], rfl⟩
  have hE : ((gradeDocsLoop O q (O.retrieveFn q)).1).isEmpty = false := by
    cases hL : (gradeDocsLoop O q (O.retrieveFn q)).1 with
    | nil => exact absurd hL hne
    | cons a l => rfl
  have h2 : (run O q 2).node = Node.generateN ∧ (run O q 2).calls = 0 := by
    rw [run_two]
    exact ⟨by simp [decide_to_generate, hE], rfl⟩
  have hmain : ∀ n, (run O q (n + 2)).node = Node.generateN ∧
      (run O q (n + 2)).calls = n := by
    intro n
    induction n with
    | zero => exact h2
    | succ n ih =>
      have hc : run O q (n + 2) = ⟨Node.generateN, (run O q (n + 2)).state, n⟩ := by
        conv_lhs => rw [show run O q (n + 2) =
          (⟨(run O q (n + 2)).node, (run O q (n + 2)).state,
            (run O q (n + 2)).calls⟩ : Config) from rfl]
        rw [ih.1, ih.2]
      show (step O (run O q (n + 2))).node = Node.generateN ∧
        (step O (run O q (n + 2))).calls = n + 1
      rw [hc]
      exact hstep _ n
  refine ⟨hmain, ?_⟩
  intro n
  match n with
  | 0 => exact fun hc => nomatch hc
  | 1 => rw [run_one]; exact fun hc => nomatch hc
  | (m + 2) => rw [(hmain m).1]; exact fun hc => nomatch hc

/-- Witness for C4: with the always-no groundedness grader the run is still
at `GENERATE` after 7 steps, having already called the generator 5 times. -/
theorem c4_unbounded_retry_witness :
    (run oracleLoop "q" 7).node = Node.generateN ∧
    (run oracleLoop "q" 7).calls = 5 :=
  (c4_unbounded_retry oracleLoop "q" (fun _ _ _ => rfl) (by decide)).1 5

/-- C6: when at some step the workflow is at `GENERATE` and both graders
accept the freshly produced generation, the next configuration is the
terminal `END`, its generation channel holds exactly that last generator
output, the configuration never changes afterwards, and the HTTP handler
returns that output as the success body. -/
theorem c6_success_returns_last_generation (O : Oracles) (q : String)
    (n k : Nat) (s : GraphState)
    (hrun : run O q n = ⟨Node.generateN, s, k⟩)
    (hhall : O.hallScore k s.documents (O.genOut k s.question s.documents) = true)
    (hans : O.ansScore k s.question (O.genOut k s.question s.documents) = true) :
    (run O q (n + 1)).node = Node.endN ∧
    (run O q (n + 1)).state.generation = some (O.genOut k s.question s.documents) ∧
    (∀ m, n + 1 ≤ m → run O q m = run O q (n + 1)) ∧
    generate_response (Except.ok (run O q (n + 1)).state) =
      HttpResponse.ok (O.genOut k s.question s.documents) := by
  have h1 : run O q (n + 1) = step O ⟨Node.generateN, s, k⟩ := by
    show step O (run O q n) = _
    rw [hrun]
  have hroute := grade_gen_route O k
    ⟨s.question, s.documents, s.results, some (O.genOut k s.question s.documents)⟩
    (O.genOut k s.question s.documents) rfl
  rw [hhall, hans] at hroute
  simp only [if_true] at hroute
  have h2 : step O ⟨Node.generateN, s, k⟩ =
      ⟨Node.endN, ⟨s.question, s.documents, s.results,
        some (O.genOut k s.question s.documents)⟩, k + 1⟩ := by
    rw [step_gen, hroute]
    rfl
  rw [h1, h2]
  refine ⟨rfl, rfl, ?_, rfl⟩
  intro m hm
  have := run_end_stable O q (n + 1) (by rw [h1, h2]) m hm
  rw [this, h1, h2]

/-- Witness for C6 on a run where everything is accepted at once. -/
theorem c6_success_returns_last_generation_witness :
    (run oracleYes "q" (2 + 1)).node = Node.endN ∧
    generate_response (Except.ok (run oracleYes "q" (2 + 1)).state) =
      HttpResponse.ok (oracleYes.genOut 0 "q" [docA, docB]) :=
  ⟨(c6_success_returns_last_generation oracleYes "q" 2 0
      ⟨"q", [docA, docB], true, none⟩ (by decide) rfl rfl).1,
   (c6_success_returns_last_generation oracleYes "q" 2 0
      ⟨"q", [docA, docB], true, none⟩ (by decide) rfl rfl).2.2.2⟩

/-- C7: each node returns the question it received; `generate` returns the
documents unchanged and overwrites only the generation channel, so a retry
re-enters `GENERATE` with the identical retained passage set; along any run
the question equals the input question. -/
theorem c7_question_immutable_frame (O : Oracles) (s : GraphState) (k : Nat)
    (q : String) :
    (merge s (retrieve O s)).question = s.question ∧
    (merge s (grade_documents O s)).question = s.question ∧
    (merge s (generate O k s)).question = s.question ∧
    (merge s (generate O k s)).documents = s.documents ∧
    merge s (generate O k s) =
      { s with generation := some (O.genOut k s.question s.documents) } ∧
    ((step O ⟨Node.generateN, s, k⟩).node = Node.generateN →
      (step O ⟨Node.generateN, s, k⟩).state.documents = s.documents) ∧
    (∀ n, (run O q n).state.question = q) :=
  ⟨rfl, rfl, rfl, rfl, rfl, (fun _ => rfl), (fun n => run_state_question O q n)⟩

/-- Witness for C7: a hallucination-grader retry keeps the documents. -/
theorem c7_question_immutable_frame_witness :
    (step oracleLoop ⟨Node.generateN, ⟨"q", [docA], true, none⟩, 0⟩).state.documents =
      [docA] :=
  (c7_question_immutable_frame oracleLoop ⟨"q", [docA], true, none⟩ 0 "q").2.2.2.2.2.1
    (by decide)

/-- C8: any exception propagating out of the workflow is answered by the
handler with HTTP 500 and the one fixed message, independent of which
exception occurred, so no partial workflow state is exposed. -/
theorem c8_exception_yields_fixed_500 (e : String) :
    generate_response (Except.error e) =
      HttpResponse.error 500 "Error generating response" ∧
    (∀ e2 : String,
      generate_response (Except.error e) = generate_response (Except.error e2)) :=
  ⟨rfl, fun _ => rfl⟩

/-- C10: when no retrieved passage survives grading, the workflow ends with
the generation channel never written, and the handler does not fail: it
returns the success body "N/A", the default used when reading the
generation key from the final state. -/
theorem c10_no_results_returns_na (O : Oracles) (q : String)
    (h : ∀ d, d ∈ O.retrieveFn q →
      py_lower (O.relevanceScore q d.page_content) ≠ "yes") :
    (run O q 2).node = Node.endN ∧
    (run O q 2).state.generation = none ∧
    (∀ m, 2 ≤ m → run O q m = run O q 2) ∧
    generate_response (Except.ok (run O q 2).state) = HttpResponse.ok "N/A" := by
  have h2 : run O q 2 = ⟨Node.endN, ⟨q, [], false, none⟩, 0⟩ :=
    run_two_of_no_relevant O q h
  refine ⟨by rw [h2], by rw [h2], ?_, by rw [h2]; rfl⟩
  intro m hm
  exact run_end_stable O q 2 (by rw [h2]) m hm

/-- Witness for C10 at oracles whose relevance grader rejects everything. -/
theorem c10_no_results_returns_na_witness :
    (run oracleNo "q" 2).node = Node.endN ∧
    generate_response (Except.ok (run oracleNo "q" 2).state) =
      HttpResponse.ok "N/A" :=
  ⟨(c10_no_results_returns_na oracleNo "q"
      (fun d _ => by show py_lower "no" ≠ "yes"; decide)).1,
   (c10_no_results_returns_na oracleNo "q"
      (fun d _ => by show py_lower "no" ≠ "yes"; decide)).2.2.2⟩

/-- The documents built by the row loop, indexed from any start. -/
theorem process_rows_from_get (f : String) (j : Nat)
    (rows : List (List (String × String))) (i : Nat) :
    (process_rows_from f j rows)[i]? =
      (rows[i]?).map fun r => (⟨row_content r, f, j + i⟩ : Doc) := by
  induction rows generalizing j i with
  | nil => simp [process_rows_from]
  | cons r rs ih =>
    cases i with
    | zero => simp [process_rows_from]
    | succ i =>
      have hj : j + (i + 1) = (j + 1) + i := by omega
      simp [process_rows_from, ih (j + 1) i, hj]

/-- The row loop builds one document per row. -/
theorem process_rows_from_length (f : String) (j : Nat)
    (rows : List (List (String × String))) :
    (process_rows_from f j rows).length = rows.length := by
  induction rows generalizing j with
  | nil => rfl
  | cons r rs ih => simp [process_rows_from, ih (j + 1)]

/-- C9: each CSV row becomes exactly one passage whose content is the
columns rendered as `name:\nvalue` joined by blank lines with the two
designated columns cleaned, and whose metadata is the file path and the row
index; on the row `id=1, data=hello \x7b"url":"http://x"\x7d world` the
stored content is `id:\n1\n\ndata:\nhello  world` — the URL fragment is
stripped leaving two spaces — with metadata source `file.csv`, row 0, and
the content contains "hello  world". -/
theorem c9_csv_row_to_passage (f : String)
    (rows : List (List (String × String))) :
    (process_csv_rows f rows).length = rows.length ∧
    (∀ i, (process_csv_rows f rows)[i]? =
      (rows[i]?).map fun r => (⟨row_content r, f, i⟩ : Doc)) ∧
    process_csv_rows "file.csv"
        [[("id", "1"), ("data", "hello \x7b\"url\":\"http://x\"\x7d world")]] =
      [⟨"id:\n1\n\ndata:\nhello  world", "file.csv", 0⟩] ∧
    (∃ pre post,
      row_content [("id", "1"), ("data", "hello \x7b\"url\":\"http://x\"\x7d world")] =
        pre ++ "hello  world" ++ post) := by
  refine ⟨process_rows_from_length f 0 rows, ?_, by decide,
    ⟨"id:\n1\n\ndata:\n", "", by decide⟩⟩
  intro i
  have h := process_rows_from_get f 0 rows i
  simpa using h

end RagSpec
